import Mathlib

/-!
Shallow embedding of the webhook-repo event pipeline
(`src/app.py`, `src/database.py`, `src/config.py`).

Instants are modelled as `Int` (a parsed timestamp is an integer point on
the time line).  Parsing of ISO-8601 strings is done in the source by the
external library call `datetime.fromisoformat`; it is modelled as an
explicit parameter `parse : String → Option Int` (`none` = `ValueError`).
The remote document store is modelled by its documented interface: a list
of stored documents plus the unique index on `request_id` that makes
`insert_one` raise `DuplicateKeyError` exactly when a stored document
already carries the same `request_id` value.
-/

namespace Webhook

/-- A JSON object payload, as received by `request.get_json()`:
an association list of string keys to string values. -/
abbrev Payload : Type := List (String × String)

/-- Python `data.get(k)`: `None` when the key is absent. -/
def Payload.get (p : Payload) (k : String) : Option String :=
  (List.find? (fun kv => kv.1 == k) p).map (fun kv => kv.2)

/-- Python `data.get(k, d)`. -/
def Payload.getD (p : Payload) (k : String) (d : String) : String :=
  (Payload.get p k).getD d

/-- Python `k in data`. -/
def Payload.hasKey (p : Payload) (k : String) : Bool :=
  List.any p (fun kv => kv.1 == k)

/-- Python `not data` for a JSON object: falsy iff empty. -/
def Payload.isFalsy (p : Payload) : Bool :=
  List.isEmpty p

/-- The stored Event document, exactly the dict built in
`Database.insert_event` (src/database.py lines 79-89).  Fields read with
`event_data.get(k)` may be `None`, hence `Option String`; fields read with
`event_data.get(k, "")` default to the empty string. -/
structure Event where
  event_type : Option String
  author : Option String
  action : String
  from_branch : String
  to_branch : String
  branch : String
  timestamp : Int
  request_id : Option String
  created_at : Int
deriving Repr, DecidableEq

/-- The collection of stored documents. -/
abbrev DbState : Type := List Event

/-- Errors that escape `Database.insert_event` (re-raised by its
`except Exception: raise`). `attributeError` models `None.replace` when
`timestamp` is absent; `parseError` models `ValueError` from
`datetime.fromisoformat`. -/
inductive InsertError where
  | attributeError
  | parseError
deriving Repr, DecidableEq

/-- The document dict built in `Database.insert_event`
(src/database.py lines 79-89), with the timestamp already parsed to `t`
and `created_at` set to the wall clock `now`. -/
def builtDocument (event_data : Payload) (t now : Int) : Event :=
  { event_type := Payload.get event_data "event_type"
    author := Payload.get event_data "author"
    action := Payload.getD event_data "action" ""
    from_branch := Payload.getD event_data "from_branch" ""
    to_branch := Payload.getD event_data "to_branch" ""
    branch := Payload.getD event_data "branch" ""
    timestamp := t
    request_id := Payload.get event_data "request_id"
    created_at := now }

/-- `Database.insert_event` (src/database.py lines 58-101).
Builds the document (parsing the timestamp — this may raise), then runs
`insert_one` against the unique index on `request_id`:
`DuplicateKeyError` is caught and turned into `False` with the collection
untouched; a successful insert appends the document and returns `True`.
Any other exception is re-raised. -/
def insert_event (parse : String → Option Int) (now : Int)
    (event_data : Payload) (st : DbState) : Except InsertError (Bool × DbState) :=
  match Payload.get event_data "timestamp" with
  | none => Except.error InsertError.attributeError
  | some ts =>
    match parse ts with
    | none => Except.error InsertError.parseError
    | some t =>
      let document : Event := builtDocument event_data t now
      if List.any st (fun e => e.request_id == document.request_id) then
        Except.ok (false, st)
      else
        Except.ok (true, st ++ [document])

/-- Number of stored documents carrying a given `request_id` value. -/
def countRequestId (st : DbState) (rid : Option String) : Nat :=
  List.length (List.filter (fun e => e.request_id == rid) st)

/-- The responses the `/webhook` endpoint can produce
(src/app.py lines 60-101). -/
inductive WebhookResponse where
  | emptyPayload
  | missingFields (fields : List String)
  | success (request_id : String)
  | duplicate (request_id : String)
  | serverError
deriving Repr, DecidableEq

/-- HTTP status code of each `/webhook` response. -/
def WebhookResponse.statusCode : WebhookResponse → Nat
  | WebhookResponse.emptyPayload => 400
  | WebhookResponse.missingFields _ => 400
  | WebhookResponse.success _ => 201
  | WebhookResponse.duplicate _ => 200
  | WebhookResponse.serverError => 500

/-- The required-field list of src/app.py line 69. -/
def requiredFields : List String := ["event_type", "author", "timestamp"]

/-- `POST /webhook` (src/app.py lines 40-101).  `body` is the result of
`request.get_json()` (`none` for a null/absent JSON body); `freshId` is
the `str(uuid.uuid4())` the server would generate. -/
def webhook (parse : String → Option Int) (now : Int) (freshId : String)
    (body : Option Payload) (st : DbState) : WebhookResponse × DbState :=
  match body with
  | none => (WebhookResponse.emptyPayload, st)
  | some data =>
    if Payload.isFalsy data then (WebhookResponse.emptyPayload, st)
    else
      let missing_fields := List.filter (fun f => !(Payload.hasKey data f)) requiredFields
      if !List.isEmpty missing_fields then
        (WebhookResponse.missingFields missing_fields, st)
      else
        let data' := if Payload.hasKey data "request_id" then data
                     else data ++ [("request_id", freshId)]
        let rid := Payload.getD data' "request_id" ""
        match insert_event parse now data' st with
        | Except.ok (true, st2) => (WebhookResponse.success rid, st2)
        | Except.ok (false, st2) => (WebhookResponse.duplicate rid, st2)
        | Except.error _ => (WebhookResponse.serverError, st)

/-- Sort key of the Mongo cursor `.sort("timestamp", DESCENDING)`:
newest first. -/
def tsDesc (a b : Event) : Prop := b.timestamp ≤ a.timestamp

instance : DecidableRel tsDesc := fun a b => inferInstanceAs (Decidable (b.timestamp ≤ a.timestamp))

instance : IsTotal Event tsDesc := ⟨fun a b => le_total b.timestamp a.timestamp⟩

instance : IsTrans Event tsDesc := ⟨fun _ _ _ h1 h2 => le_trans h2 h1⟩

/-- The error raised out of `Database.get_recent_events` when the store is
unreachable (`except Exception: raise`, src/database.py lines 138-140). -/
inductive QueryError where
  | connectionError
deriving Repr, DecidableEq

/-- The query filter of src/database.py lines 116-118: `{}` when `since`
is `None`, `{"timestamp": {"$gt": since}}` otherwise (a `datetime` value is
always truthy in Python, so `some t` always installs the filter). -/
def applySince (st : DbState) (since : Option Int) : List Event :=
  match since with
  | none => st
  | some t => List.filter (fun e => decide (t < e.timestamp)) st

/-- PyMongo `Cursor.limit(limit)` with its documented semantics: the
argument is a Python `int`; `limit(0)` means NO limit (all matching
documents are returned); a nonzero limit — negative included, which
returns a single batch of at most `|limit|` documents — caps the result
at `|limit|` documents. -/
def applyLimit (limit : Int) (l : List Event) : List Event :=
  if limit = 0 then l else List.take limit.natAbs l

/-- The cursor pipeline `find(filter).sort("timestamp", DESCENDING)
.limit(limit)` (src/database.py lines 121-125), at the Storage Adapter
interface: filter, sort newest-first, apply `Cursor.limit`. -/
def recentSorted (st : DbState) (limit : Int) (since : Option Int) : List Event :=
  applyLimit limit (List.insertionSort tsDesc (applySince st since))

/-- `Database.get_recent_events` (src/database.py lines 103-140).
`db` models the reachable collection (`none` = the find raises a
connection error, which the `except` block re-raises); `limit` and
`since` keep the Python defaults `50` and `None`; `limit` is an `Int`
because the Python `int` reaching it may be zero or negative. -/
def get_recent_events (db : Option DbState) (limit : Int := 50)
    (since : Option Int := none) : Except QueryError (List Event) :=
  match db with
  | none => Except.error QueryError.connectionError
  | some st => Except.ok (recentSorted st limit since)

/-- Responses of `GET /api/events` (src/app.py lines 104-144). -/
inductive EventsResponse where
  | success (count : Nat) (events : List Event)
  | internalError
deriving Repr, DecidableEq

/-- HTTP status code of each `/api/events` response. -/
def EventsResponse.statusCode : EventsResponse → Nat
  | EventsResponse.success _ _ => 200
  | EventsResponse.internalError => 500

/-- Python `if since_param:` then `datetime.fromisoformat` with `ValueError`
logged and ignored (src/app.py lines 123-128): a malformed or empty
`since` is treated as absent. -/
def parseSince (parse : String → Option Int) (since_param : Option String) : Option Int :=
  match since_param with
  | none => none
  | some s => if s = "" then none else parse s

/-- `GET /api/events` (src/app.py lines 104-144): `limit` is a caller
-supplied Python `int` (any sign) defaulting to 50, `since` is parsed
leniently, and any exception out of the store becomes a 500 error
response. -/
def get_events (parse : String → Option Int) (db : Option DbState)
    (limit_param : Option Int) (since_param : Option String) : EventsResponse :=
  let limit := Option.getD limit_param 50
  let since := parseSince parse since_param
  match get_recent_events db limit since with
  | Except.ok events => EventsResponse.success (List.length events) events
  | Except.error _ => EventsResponse.internalError

/-- MongoClient timeout settings of `Database.connect`
(src/database.py lines 34-39), in milliseconds. -/
def serverSelectionTimeoutMS : Nat := 10000

/-- `connectTimeoutMS=10000` (src/database.py line 37). -/
def connectTimeoutMS : Nat := 10000

/-- `socketTimeoutMS=10000` (src/database.py line 38). -/
def socketTimeoutMS : Nat := 10000

/-- Outcome of the network round trip attempted inside
`Database.connect` (the `ping`), supplied by the environment: with a
missing `MONGODB_URI` the client points at a default host and the ping
fails. -/
inductive ConnectOutcome where
  | success
  | failure
deriving Repr, DecidableEq

/-- Errors escaping `Database.connect`: `ConnectionFailure` is caught,
logged and re-raised (src/database.py lines 54-56). -/
inductive ConnError where
  | connectionFailure
deriving Repr, DecidableEq

/-- Connection-lifecycle state of the `Database` object:
`client` is `none` until `connect` succeeds. -/
structure DatabaseConn where
  client : Option Unit
deriving Repr, DecidableEq

/-- Operations a `Database` method can perform against the store. -/
inductive DbOp where
  | connect
  | insertOne
  | find
  | deleteMany
deriving Repr, DecidableEq

/-- `Database.connect` (src/database.py lines 27-56): attempts the
connection and ping; on `ConnectionFailure` the exception is re-raised. -/
def Database.connect (outcome : ConnectOutcome) : Except ConnError DatabaseConn :=
  match outcome with
  | ConnectOutcome.success => Except.ok { client := some () }
  | ConnectOutcome.failure => Except.error ConnError.connectionFailure

/-- `Database.__init__` (src/database.py lines 20-25): sets the handles to
`None` and then calls `self.connect()`; it also returns the trace of store
operations performed during construction. -/
def Database.init (outcome : ConnectOutcome) :
    Except ConnError DatabaseConn × List DbOp :=
  (Database.connect outcome, [DbOp.connect])

/-- Module-level `db = Database()` (src/database.py line 175), executed at
process startup when `app.py` does `from database import db`: an exception
out of `Database.__init__` propagates and aborts startup. -/
def moduleStartup (outcome : ConnectOutcome) :
    Except ConnError DatabaseConn × List DbOp :=
  Database.init outcome

/-! Concrete fixtures used to evaluate the model on specific inputs. -/

/-- A concrete timestamp parser: the two instants of the spec's end-to-end
scenario parse, everything else raises `ValueError`. -/
def parse0 : String → Option Int := fun s =>
  if s = "2026-01-30T10:00:00Z" then some 100
  else if s = "2026-01-30T11:00:00Z" then some 160
  else none

/-- A fully valid payload carrying its own `request_id`. -/
def payloadA : Payload :=
  [("event_type", "push"), ("author", "alice"),
   ("timestamp", "2026-01-30T10:00:00Z"), ("request_id", "req-1")]

/-- A payload whose only key is `author`. -/
def payloadOnlyAuthor : Payload := [("author", "alice")]

/-- A payload with all required fields present but an unparseable
timestamp. -/
def payloadBadTs : Payload :=
  [("event_type", "push"), ("author", "alice"),
   ("timestamp", "not-a-date"), ("request_id", "req-9")]

/-- The stored document produced by ingesting `payloadA`. -/
def evA : Event :=
  { event_type := some "push", author := some "alice", action := "",
    from_branch := "", to_branch := "", branch := "",
    timestamp := 100, request_id := some "req-1", created_at := 0 }

/-- A second stored document with the same `timestamp` as `evA` but a
different `request_id`. -/
def evB : Event := { evA with request_id := some "req-2" }

/-- A later stored document. -/
def evC : Event := { evA with request_id := some "req-3", timestamp := 250 }

/-! ### Helper lemmas about payload key lookup -/

theorem hasKey_of_get_some {p : Payload} {k v : String}
    (h : Payload.get p k = some v) : Payload.hasKey p k = true := by
  unfold Payload.get at h
  cases hf : List.find? (fun kv => kv.1 == k) p with
  | none => rw [hf] at h; exact Option.noConfusion h
  | some kv =>
    have hpred := @List.find?_some _ (fun kv : String × String => kv.1 == k) kv p hf
    exact List.any_eq_true.mpr ⟨kv, List.mem_of_find?_eq_some hf, hpred⟩

theorem find?_key_eq_none_of_not_hasKey {p : Payload} {k : String}
    (h : Payload.hasKey p k = false) :
    List.find? (fun kv => kv.1 == k) p = none := by
  rw [List.find?_eq_none]
  intro kv hkv hpred
  have : Payload.hasKey p k = true := List.any_eq_true.mpr ⟨kv, hkv, hpred⟩
  rw [h] at this
  exact Bool.noConfusion this

theorem get_eq_none_of_not_hasKey {p : Payload} {k : String}
    (h : Payload.hasKey p k = false) : Payload.get p k = none := by
  unfold Payload.get
  rw [find?_key_eq_none_of_not_hasKey h]
  rfl

theorem get_append_of_hasKey {p : Payload} (q : Payload) {k : String}
    (h : Payload.hasKey p k = true) : Payload.get (p ++ q) k = Payload.get p k := by
  unfold Payload.get
  rw [List.find?_append]
  cases hf : List.find? (fun kv => kv.1 == k) p with
  | none =>
    obtain ⟨kv, hkv, hpred⟩ := List.any_eq_true.mp h
    have := List.find?_eq_none.mp hf kv hkv
    rw [hpred] at this
    exact absurd rfl this
  | some kv => rfl

theorem get_append_single_self {p : Payload} {k v : String}
    (h : Payload.hasKey p k = false) :
    Payload.get (p ++ [(k, v)]) k = some v := by
  unfold Payload.get
  rw [List.find?_append, find?_key_eq_none_of_not_hasKey h,
    List.find?_cons_of_pos _ (by simp)]
  rfl

theorem get_append_single_other {p : Payload} {k k' v : String} (hne : k' ≠ k) :
    Payload.get (p ++ [(k', v)]) k = Payload.get p k := by
  unfold Payload.get
  rw [List.find?_append]
  cases hf : List.find? (fun kv => kv.1 == k) p with
  | none =>
    rw [List.find?_cons_of_neg _ (by simpa using hne)]
    rfl
  | some kv => rfl

theorem exists_get_of_hasKey {p : Payload} {k : String}
    (h : Payload.hasKey p k = true) : ∃ v, Payload.get p k = some v := by
  unfold Payload.get
  obtain ⟨kv, hkv, hpred⟩ := List.any_eq_true.mp h
  cases hf : List.find? (fun kv => kv.1 == k) p with
  | none =>
    have := List.find?_eq_none.mp hf kv hkv
    rw [hpred] at this
    exact absurd rfl this
  | some kv' => exact ⟨kv'.2, rfl⟩

/-- A positive stored-record count for a `request_id` means the unique
index will report a duplicate. -/
theorem any_request_id_of_count_pos {st : DbState} {rid : Option String}
    (h : 0 < countRequestId st rid) :
    List.any st (fun e => e.request_id == rid) = true := by
  unfold countRequestId at h
  have hne : List.filter (fun e => e.request_id == rid) st ≠ [] := by
    intro hnil
    rw [hnil] at h
    exact Nat.lt_irrefl 0 h
  obtain ⟨e, he⟩ := List.exists_mem_of_ne_nil _ hne
  have hm := List.mem_filter.mp he
  exact List.any_eq_true.mpr ⟨e, hm.1, hm.2⟩

/-- Whatever the limit (zero, positive or negative), the capped cursor
result is a sublist of the uncapped one. -/
theorem applyLimit_sublist (limit : Int) (l : List Event) :
    List.Sublist (applyLimit limit l) l := by
  unfold applyLimit
  split
  · exact List.Sublist.refl l
  · exact List.take_sublist _ _

/-! ### The claims -/

/-- C1: for every stored event and every subsequent ingestion of a payload
carrying the same `request_id` (with a parseable timestamp, as any
re-delivered stored payload has), `insert_event` returns the duplicate
outcome (`Except.ok (false, st)`): no overwrite, no raise, and the stored
record count for that `request_id` remains exactly 1. -/
theorem C1_duplicate_insert_is_noop (parse : String → Option Int) (now : Int)
    (data : Payload) (st : DbState) (ts : String) (t : Int)
    (hts : Payload.get data "timestamp" = some ts)
    (hparse : parse ts = some t)
    (hcount : countRequestId st (Payload.get data "request_id") = 1) :
    insert_event parse now data st = Except.ok (false, st) ∧
    (∀ st', insert_event parse now data st = Except.ok (false, st') →
      countRequestId st' (Payload.get data "request_id") = 1) := by
  have hany : List.any st (fun e => e.request_id == Payload.get data "request_id") = true :=
    any_request_id_of_count_pos (by rw [hcount]; exact Nat.one_pos)
  have heq : insert_event parse now data st = Except.ok (false, st) := by
    simp only [insert_event, builtDocument, hts, hparse, hany, if_true]
  refine ⟨heq, fun st' h => ?_⟩
  rw [heq] at h
  have hst : st = st' := congrArg Prod.snd (Except.ok.inj h)
  rw [← hst]
  exact hcount

/-- C1 witness: re-ingesting `payloadA` over a store already holding its
document is a duplicate no-op. -/
theorem C1_witness :
    insert_event parse0 0 payloadA [evA] = Except.ok (false, [evA]) :=
  (C1_duplicate_insert_is_noop parse0 0 payloadA [evA] "2026-01-30T10:00:00Z" 100
    (by decide) (by decide) (by decide)).1

/-- C3 counterexample: when the store is unreachable, the recent-events
query raises a connection error (it is not `Except.ok []`), and
`GET /api/events` answers 500, not an empty sequence. -/
theorem C3_counterexample :
    get_recent_events none 50 none = Except.error QueryError.connectionError ∧
    get_recent_events none 50 none ≠ Except.ok [] ∧
    get_events parse0 none none none = EventsResponse.internalError ∧
    EventsResponse.statusCode (get_events parse0 none none none) = 500 := by
  refine ⟨rfl, fun h => Except.noConfusion h, rfl, rfl⟩

/-- C3 amended: on any storage/connection failure the query propagates the
error — `get_recent_events` re-raises (never returns a list) and
`GET /api/events` returns a 500 error response, not an empty sequence. -/
theorem C3_query_failure_propagates (limit : Int) (since : Option Int)
    (parse : String → Option Int) (lp : Option Int) (sp : Option String) :
    get_recent_events none limit since = Except.error QueryError.connectionError ∧
    (∀ l : List Event, get_recent_events none limit since ≠ Except.ok l) ∧
    get_events parse none lp sp = EventsResponse.internalError ∧
    EventsResponse.statusCode (get_events parse none lp sp) = 500 := by
  refine ⟨rfl, fun l h => Except.noConfusion h, rfl, rfl⟩

/-- C3 witness: the amended behaviour at a concrete failing store. -/
theorem C3_witness :
    get_events parse0 none none none = EventsResponse.internalError :=
  (C3_query_failure_propagates 50 none parse0 none none).2.2.1

/-- C5 counterexample: two stored events sharing a timestamp are both
returned, so the result is not sorted STRICTLY descending by timestamp;
moreover at the caller-reachable limit 0 (`?limit=0`), `Cursor.limit(0)`
means no limit, so the query returns 1 > 0 events, falsifying
"at most N events" at N = 0. -/
theorem C5_counterexample :
    get_recent_events (some [evA, evB]) 50 none = Except.ok [evA, evB] ∧
    evA.timestamp = evB.timestamp ∧ evA ≠ evB ∧
    ¬ List.Pairwise (fun a b : Event => b.timestamp < a.timestamp) [evA, evB] ∧
    get_recent_events (some [evA]) 0 none = Except.ok [evA] ∧
    ¬ (([evA] : List Event).length ≤ 0) := by
  refine ⟨rfl, rfl, by decide, by decide, rfl, by decide⟩

/-- C5 amended: for every NONZERO limit the recent-events query returns
at most `|limit|` events (so at most `limit` when the limit is positive,
as with the default 50); limit 0 is `Cursor.limit(0)`, meaning no limit —
every matching event is returned.  Results are sorted descending
(non-increasing; ties on equal timestamps allowed, so not strictly) by
timestamp, for every store and every `since`; `GET /api/events` without a
`limit` parameter uses the default 50. -/
theorem C5_query_cap_and_descending (st : DbState) (limit : Int)
    (since : Option Int) (parse : String → Option Int) (sp : Option String) :
    get_recent_events (some st) limit since = Except.ok (recentSorted st limit since) ∧
    (limit ≠ 0 → (recentSorted st limit since).length ≤ limit.natAbs) ∧
    (0 < limit → ((recentSorted st limit since).length : Int) ≤ limit) ∧
    recentSorted st 0 since = List.insertionSort tsDesc (applySince st since) ∧
    List.Pairwise tsDesc (recentSorted st limit since) ∧
    get_events parse (some st) none sp =
      EventsResponse.success (recentSorted st 50 (parseSince parse sp)).length
        (recentSorted st 50 (parseSince parse sp)) := by
  have hcap : limit ≠ 0 → (recentSorted st limit since).length ≤ limit.natAbs := by
    intro h0
    unfold recentSorted applyLimit
    rw [if_neg h0]
    exact List.length_take_le _ _
  refine ⟨rfl, hcap, ?_, ?_, ?_, rfl⟩
  · intro hpos
    have h1 := hcap (ne_of_gt hpos)
    have h2 : (limit.natAbs : Int) = limit := Int.natAbs_of_nonneg (le_of_lt hpos)
    omega
  · unfold recentSorted applyLimit
    rw [if_pos rfl]
  · exact List.Pairwise.sublist (applyLimit_sublist limit _)
      (List.sorted_insertionSort tsDesc (applySince st since))

/-- C5 witness: at the concrete positive limit 2 over three stored
events, the cap holds. -/
theorem C5_witness :
    (recentSorted [evA, evB, evC] 2 none).length ≤ ((2 : Int)).natAbs ∧
    ((recentSorted [evA, evB, evC] 2 none).length : Int) ≤ 2 :=
  ⟨(C5_query_cap_and_descending [evA, evB, evC] 2 none parse0 none).2.1
      (by decide),
   (C5_query_cap_and_descending [evA, evB, evC] 2 none parse0 none).2.2.1
      (by decide)⟩

/-- C6: with a `since` watermark `T`, every returned event has timestamp
strictly greater than `T`; an event whose timestamp equals `T` is
excluded. -/
theorem C6_since_is_strict_lower_bound (st : DbState) (limit : Int) (T : Int) :
    (∀ e, e ∈ recentSorted st limit (some T) → T < e.timestamp) ∧
    (∀ e, e ∈ recentSorted st limit (some T) → e.timestamp ≠ T) ∧
    (∀ l, get_recent_events (some st) limit (some T) = Except.ok l →
      ∀ e, e ∈ l → T < e.timestamp) := by
  have hmain : ∀ e, e ∈ recentSorted st limit (some T) → T < e.timestamp := by
    intro e he
    unfold recentSorted at he
    have h1 : e ∈ List.insertionSort tsDesc (applySince st (some T)) :=
      (applyLimit_sublist limit _).subset he
    have h2 : e ∈ applySince st (some T) := (List.mem_insertionSort tsDesc).mp h1
    unfold applySince at h2
    exact of_decide_eq_true (List.mem_filter.mp h2).2
  refine ⟨hmain, fun e he hT => absurd hT (ne_of_gt (hmain e he)), fun l hl e he => ?_⟩
  have : recentSorted st limit (some T) = l := Except.ok.inj hl
  rw [← this] at he
  exact hmain e he

/-- C6 witness: with watermark 100, the returned event `evC` has a
strictly greater timestamp. -/
theorem C6_witness : (100 : Int) < evC.timestamp :=
  (C6_since_is_strict_lower_bound [evC] 50 100).1 evC (by decide)

/-- C7 counterexample: `Database.__init__` (run by the module-level
`db = Database()` at process startup) already performs a connect — its
operation trace is `[connect]` with no storage operation in front of it —
and when that connect fails (as with missing storage configuration) the
exception propagates out of startup. -/
theorem C7_counterexample :
    (moduleStartup ConnectOutcome.success).2 = [DbOp.connect] ∧
    DbOp.insertOne ∉ (moduleStartup ConnectOutcome.success).2 ∧
    DbOp.find ∉ (moduleStartup ConnectOutcome.success).2 ∧
    (moduleStartup ConnectOutcome.success).1 = Except.ok { client := some () } ∧
    (moduleStartup ConnectOutcome.failure).1 =
      Except.error ConnError.connectionFailure := by
  refine ⟨rfl, by decide, by decide, rfl, rfl⟩

/-- C7 amended: the storage connection is attempted eagerly inside
`Database.__init__`, which the module-level `db = Database()` runs at
process startup (before any storage operation); a connection failure
there — the situation with missing storage configuration — propagates
and aborts startup. -/
theorem C7_connect_is_eager_at_startup (outcome : ConnectOutcome) :
    (moduleStartup outcome).2 = [DbOp.connect] ∧
    (moduleStartup ConnectOutcome.failure).1 =
      Except.error ConnError.connectionFailure ∧
    (moduleStartup ConnectOutcome.success).1 = Except.ok { client := some () } :=
  ⟨rfl, rfl, rfl⟩

/-- C9 counterexample: all three MongoClient timeouts are 10000 ms, i.e.
exactly 10 seconds — none is strictly below 10 seconds. -/
theorem C9_counterexample :
    serverSelectionTimeoutMS = 10000 ∧ connectTimeoutMS = 10000 ∧
    socketTimeoutMS = 10000 ∧ ¬ (serverSelectionTimeoutMS < 10000) ∧
    ¬ (connectTimeoutMS < 10000) ∧ ¬ (socketTimeoutMS < 10000) := by
  decide

/-- C9 amended: every connection attempt is bounded by server-selection,
connect and socket timeouts of exactly 10 seconds (10000 ms) each —
bounded, so no storage call hangs indefinitely, but not single-digit. -/
theorem C9_timeouts_are_ten_seconds :
    serverSelectionTimeoutMS = 10 * 1000 ∧ connectTimeoutMS = 10 * 1000 ∧
    socketTimeoutMS = 10 * 1000 := by
  decide

/-- C10: a null body or the empty JSON object takes the falsy-body branch
of `/webhook`: the generic "Empty payload" 400, not the response listing
the missing required fields. -/
theorem C10_falsy_body_generic_400 (parse : String → Option Int) (now : Int)
    (freshId : String) (st : DbState) :
    webhook parse now freshId none st = (WebhookResponse.emptyPayload, st) ∧
    webhook parse now freshId (some ([] : Payload)) st =
      (WebhookResponse.emptyPayload, st) ∧
    (∀ data : Payload, Payload.isFalsy data = true →
      webhook parse now freshId (some data) st = (WebhookResponse.emptyPayload, st)) ∧
    WebhookResponse.statusCode WebhookResponse.emptyPayload = 400 ∧
    (∀ fs : List String,
      WebhookResponse.emptyPayload ≠ WebhookResponse.missingFields fs) := by
  refine ⟨rfl, rfl, ?_, rfl, fun fs h => WebhookResponse.noConfusion h⟩
  intro data hd
  simp only [webhook, hd, if_true]

/-- C10 witness: the empty JSON object at a concrete store. -/
theorem C10_witness :
    webhook parse0 0 "gen" (some ([] : Payload)) [] =
      (WebhookResponse.emptyPayload, []) :=
  (C10_falsy_body_generic_400 parse0 0 "gen" []).2.2.1 [] (by decide)

/-- C4 counterexample: the empty JSON object omits all three required
fields, yet `/webhook` answers with the generic "Empty payload" error, not
with the response listing the missing fields. -/
theorem C4_counterexample :
    webhook parse0 0 "gen" (some ([] : Payload)) [] =
      (WebhookResponse.emptyPayload, []) ∧
    List.filter (fun f => !(Payload.hasKey ([] : Payload) f)) requiredFields =
      ["event_type", "author", "timestamp"] ∧
    WebhookResponse.emptyPayload ≠
      WebhookResponse.missingFields ["event_type", "author", "timestamp"] := by
  refine ⟨rfl, rfl, fun h => WebhookResponse.noConfusion h⟩

/-- C4 amended: for every NONEMPTY payload missing at least one of
`event_type`, `author`, `timestamp`, `/webhook` returns 400 and lists
exactly the omitted required fields (all of them, not just the first);
the empty payload instead takes the generic "Empty payload" 400 branch. -/
theorem C4_all_missing_fields_listed (parse : String → Option Int) (now : Int)
    (freshId : String) (data : Payload) (st : DbState)
    (hne : Payload.isFalsy data = false)
    (hmiss : List.filter (fun f => !(Payload.hasKey data f)) requiredFields ≠ []) :
    webhook parse now freshId (some data) st =
      (WebhookResponse.missingFields
        (List.filter (fun f => !(Payload.hasKey data f)) requiredFields), st) ∧
    WebhookResponse.statusCode
      (WebhookResponse.missingFields
        (List.filter (fun f => !(Payload.hasKey data f)) requiredFields)) = 400 ∧
    (∀ f, f ∈ List.filter (fun f => !(Payload.hasKey data f)) requiredFields ↔
      (f ∈ requiredFields ∧ Payload.hasKey data f = false)) := by
  have hbe : List.isEmpty
      (List.filter (fun f => !(Payload.hasKey data f)) requiredFields) = false :=
    List.isEmpty_eq_false.mpr hmiss
  refine ⟨?_, rfl, fun f => ?_⟩
  · simp only [webhook, hne, Bool.false_eq_true, if_false, hbe, Bool.not_false, if_true]
  · simp [List.mem_filter]

/-- C4 witness: a payload holding only `author` gets the full list of the
two omitted required fields. -/
theorem C4_witness :
    webhook parse0 0 "gen" (some payloadOnlyAuthor) [] =
      (WebhookResponse.missingFields
        (List.filter (fun f => !(Payload.hasKey payloadOnlyAuthor f))
          requiredFields), []) :=
  (C4_all_missing_fields_listed parse0 0 "gen" payloadOnlyAuthor []
    (by decide) (by decide)).1

/-! ### Reduction lemmas for the ingestion path -/

theorem insert_event_eq_of_parse (parse : String → Option Int) (now : Int)
    (data : Payload) (st : DbState) (ts : String) (t : Int)
    (hts : Payload.get data "timestamp" = some ts)
    (hparse : parse ts = some t) :
    insert_event parse now data st =
      (if List.any st (fun e => e.request_id == Payload.get data "request_id") then
        Except.ok (false, st)
      else
        Except.ok (true, st ++ [builtDocument data t now])) := by
  simp only [insert_event, builtDocument, hts, hparse]

theorem insert_event_parse_failure (parse : String → Option Int) (now : Int)
    (data : Payload) (st : DbState) (ts : String)
    (hts : Payload.get data "timestamp" = some ts)
    (hparse : parse ts = none) :
    insert_event parse now data st = Except.error InsertError.parseError := by
  simp only [insert_event, hts, hparse]

theorem webhook_eq_of_rid_present (parse : String → Option Int) (now : Int)
    (freshId : String) (data : Payload) (st : DbState)
    (hne : Payload.isFalsy data = false)
    (het : Payload.hasKey data "event_type" = true)
    (hau : Payload.hasKey data "author" = true)
    (htsK : Payload.hasKey data "timestamp" = true)
    (hk : Payload.hasKey data "request_id" = true) :
    webhook parse now freshId (some data) st =
      (match insert_event parse now data st with
       | Except.ok (true, st2) =>
         (WebhookResponse.success (Payload.getD data "request_id" ""), st2)
       | Except.ok (false, st2) =>
         (WebhookResponse.duplicate (Payload.getD data "request_id" ""), st2)
       | Except.error _ => (WebhookResponse.serverError, st)) := by
  have hmiss : List.filter (fun f => !(Payload.hasKey data f)) requiredFields = [] := by
    simp [requiredFields, het, hau, htsK]
  simp [webhook, hne, hmiss, hk]

theorem webhook_eq_of_rid_absent (parse : String → Option Int) (now : Int)
    (freshId : String) (data : Payload) (st : DbState)
    (hne : Payload.isFalsy data = false)
    (het : Payload.hasKey data "event_type" = true)
    (hau : Payload.hasKey data "author" = true)
    (htsK : Payload.hasKey data "timestamp" = true)
    (hk : Payload.hasKey data "request_id" = false) :
    webhook parse now freshId (some data) st =
      (match insert_event parse now (data ++ [("request_id", freshId)]) st with
       | Except.ok (true, st2) => (WebhookResponse.success freshId, st2)
       | Except.ok (false, st2) => (WebhookResponse.duplicate freshId, st2)
       | Except.error _ => (WebhookResponse.serverError, st)) := by
  have hmiss : List.filter (fun f => !(Payload.hasKey data f)) requiredFields = [] := by
    simp [requiredFields, het, hau, htsK]
  have hgetd : Payload.getD (data ++ [("request_id", freshId)]) "request_id" "" =
      freshId := by
    unfold Payload.getD
    rw [get_append_single_self hk]
    rfl
  simp [webhook, hne, hmiss, hk, hgetd]

/-- C2: for every valid webhook payload (nonempty, all required fields
present, parseable timestamp), `POST /webhook` answers
`201 success` with the request id when the `request_id` is not yet stored,
and `200 duplicate` with the request id when it already is — the
duplicate case is not an error response. -/
theorem C2_valid_payload_created_or_duplicate (parse : String → Option Int)
    (now : Int) (freshId : String) (data : Payload) (st : DbState)
    (ts : String) (t : Int)
    (hne : Payload.isFalsy data = false)
    (het : Payload.hasKey data "event_type" = true)
    (hau : Payload.hasKey data "author" = true)
    (hts : Payload.get data "timestamp" = some ts)
    (hparse : parse ts = some t) :
    (List.any st (fun e =>
        e.request_id == some ((Payload.get data "request_id").getD freshId)) = false →
      (webhook parse now freshId (some data) st).1 =
        WebhookResponse.success ((Payload.get data "request_id").getD freshId) ∧
      WebhookResponse.statusCode (webhook parse now freshId (some data) st).1 = 201) ∧
    (List.any st (fun e =>
        e.request_id == some ((Payload.get data "request_id").getD freshId)) = true →
      webhook parse now freshId (some data) st =
        (WebhookResponse.duplicate ((Payload.get data "request_id").getD freshId), st) ∧
      WebhookResponse.statusCode (webhook parse now freshId (some data) st).1 = 200) := by
  have htsK : Payload.hasKey data "timestamp" = true := hasKey_of_get_some hts
  by_cases hk : Payload.hasKey data "request_id" = true
  · obtain ⟨r, hr⟩ := exists_get_of_hasKey hk
    have hw := webhook_eq_of_rid_present parse now freshId data st hne het hau htsK hk
    have hins := insert_event_eq_of_parse parse now data st ts t hts hparse
    have hgd : Payload.getD data "request_id" "" = r := by
      unfold Payload.getD
      rw [hr]
      rfl
    constructor
    · intro hany
      have hany' : (List.any st fun e =>
          e.request_id == Payload.get data "request_id") = false := by
        rw [hr]
        simpa [hr] using hany
      have hmain : webhook parse now freshId (some data) st =
          (WebhookResponse.success r, st ++ [builtDocument data t now]) := by
        rw [hw, hins, hany']
        simp [hgd]
      exact ⟨by simp [hmain, hr], by simp [hmain, WebhookResponse.statusCode]⟩
    · intro hany
      have hany' : (List.any st fun e =>
          e.request_id == Payload.get data "request_id") = true := by
        rw [hr]
        simpa [hr] using hany
      have hmain : webhook parse now freshId (some data) st =
          (WebhookResponse.duplicate r, st) := by
        rw [hw, hins, hany']
        simp [hgd]
      exact ⟨by simp [hmain, hr], by simp [hmain, WebhookResponse.statusCode]⟩
  · have hk' : Payload.hasKey data "request_id" = false := Bool.eq_false_iff.mpr hk
    have hw := webhook_eq_of_rid_absent parse now freshId data st hne het hau htsK hk'
    have hts2 : Payload.get (data ++ [("request_id", freshId)]) "timestamp" = some ts := by
      rw [get_append_single_other (by decide : ("request_id" : String) ≠ "timestamp")]
      exact hts
    have hins := insert_event_eq_of_parse parse now
      (data ++ [("request_id", freshId)]) st ts t hts2 hparse
    have hrid2 : Payload.get (data ++ [("request_id", freshId)]) "request_id" =
        some freshId := get_append_single_self hk'
    have hgn : Payload.get data "request_id" = none := get_eq_none_of_not_hasKey hk'
    constructor
    · intro hany
      have hany' : (List.any st fun e =>
          e.request_id == Payload.get (data ++ [("request_id", freshId)])
            "request_id") = false := by
        rw [hrid2]
        simpa [hgn] using hany
      have hmain : webhook parse now freshId (some data) st =
          (WebhookResponse.success freshId,
            st ++ [builtDocument (data ++ [("request_id", freshId)]) t now]) := by
        rw [hw, hins, hany']
        simp
      exact ⟨by simp [hmain, hgn], by simp [hmain, WebhookResponse.statusCode]⟩
    · intro hany
      have hany' : (List.any st fun e =>
          e.request_id == Payload.get (data ++ [("request_id", freshId)])
            "request_id") = true := by
        rw [hrid2]
        simpa [hgn] using hany
      have hmain : webhook parse now freshId (some data) st =
          (WebhookResponse.duplicate freshId, st) := by
        rw [hw, hins, hany']
        simp
      exact ⟨by simp [hmain, hgn], by simp [hmain, WebhookResponse.statusCode]⟩

/-- C2 witness: `payloadA` over an empty store is a fresh 201 insert. -/
theorem C2_witness :
    (webhook parse0 0 "gen" (some payloadA) []).1 =
      WebhookResponse.success ((Payload.get payloadA "request_id").getD "gen") ∧
    WebhookResponse.statusCode (webhook parse0 0 "gen" (some payloadA) []).1 = 201 :=
  (C2_valid_payload_created_or_duplicate parse0 0 "gen" payloadA []
    "2026-01-30T10:00:00Z" 100 (by decide) (by decide) (by decide) (by decide)
    (by decide)).1 (by decide)

/-- C8: a payload with all required fields present but an unparseable
timestamp makes `insert_event` raise a parse error, which `/webhook`
surfaces as a 500 server error with the store untouched — the event is
neither silently dropped nor stored. -/
theorem C8_unparseable_timestamp_fails_hard (parse : String → Option Int)
    (now : Int) (freshId : String) (data : Payload) (st : DbState) (ts : String)
    (hne : Payload.isFalsy data = false)
    (het : Payload.hasKey data "event_type" = true)
    (hau : Payload.hasKey data "author" = true)
    (hts : Payload.get data "timestamp" = some ts)
    (hparse : parse ts = none) :
    insert_event parse now data st = Except.error InsertError.parseError ∧
    webhook parse now freshId (some data) st = (WebhookResponse.serverError, st) ∧
    WebhookResponse.statusCode WebhookResponse.serverError = 500 := by
  have htsK : Payload.hasKey data "timestamp" = true := hasKey_of_get_some hts
  refine ⟨insert_event_parse_failure parse now data st ts hts hparse, ?_, rfl⟩
  by_cases hk : Payload.hasKey data "request_id" = true
  · rw [webhook_eq_of_rid_present parse now freshId data st hne het hau htsK hk,
      insert_event_parse_failure parse now data st ts hts hparse]
  · have hk' : Payload.hasKey data "request_id" = false := Bool.eq_false_iff.mpr hk
    have hts2 : Payload.get (data ++ [("request_id", freshId)]) "timestamp" =
        some ts := by
      rw [get_append_single_other (by decide : ("request_id" : String) ≠ "timestamp")]
      exact hts
    rw [webhook_eq_of_rid_absent parse now freshId data st hne het hau htsK hk',
      insert_event_parse_failure parse now (data ++ [("request_id", freshId)])
        st ts hts2 hparse]

/-- C8 witness: the concrete unparseable timestamp "not-a-date" yields the
500 server error with the store unchanged. -/
theorem C8_witness :
    webhook parse0 0 "gen" (some payloadBadTs) [] =
      (WebhookResponse.serverError, []) :=
  (C8_unparseable_timestamp_fails_hard parse0 0 "gen" payloadBadTs []
    "not-a-date" (by decide) (by decide) (by decide) (by decide) (by decide)).2.1

end Webhook
